import Mathlib

/-!
Verification development for AlertForge (src/alertforge.py), a security-bulletin
infographic generator.  The Python source is shallowly embedded below: pure layout
arithmetic becomes Lean functions over `Nat`/`Int`, Python `float` arithmetic used
for image aspect scaling and color blending is modelled with `Rat` (the inputs the
program actually meets keep those computations exact or far from rounding
boundaries), and the CPython `textwrap.wrap` library routine the source calls is
modelled faithfully for the default options the source uses (see `textwrap_wrap`).
File input/output is abstracted: batch processing receives each file's parsed
content as an `Except` value, and attached images are represented by their natural
pixel size.
-/

set_option maxRecDepth 10000
set_option linter.unusedVariables false

namespace AlertForge

/-! ## Python string primitives -/

/-- Whitespace characters that CPython `textwrap` replaces with a space
(`_whitespace = "\t\n\x0b\x0c\r "` minus the space itself). -/
def pyWsClass (c : Char) : Bool :=
  c == '\t' || c == '\n' || c == '\x0B' || c == '\x0C' || c == '\r'

/-- ASCII model of Python `str.isspace` / the character class stripped by
`str.strip()`.  (Unicode-only whitespace is not modelled; every input the
claims touch is ASCII plus letters.) -/
def pyIsSpace (c : Char) : Bool :=
  c == ' ' || pyWsClass c

/-- ASCII model of Python `str.lower`. -/
def pyLower (s : String) : String :=
  ⟨s.data.map Char.toLower⟩

/-- ASCII model of Python `str.upper`. -/
def pyUpper (s : String) : String :=
  ⟨s.data.map Char.toUpper⟩

/-- Python `str.strip()` (ASCII whitespace model). -/
def pyStrip (s : String) : String :=
  ⟨((s.data.dropWhile (fun c => pyIsSpace c)).reverse.dropWhile
      (fun c => pyIsSpace c)).reverse⟩

/-- Python truthiness of an optional string: `None` and `""` are falsy. -/
def pyTruthy : Option String → Bool
  | none => false
  | some s => !s.isEmpty

/-- Python `s.startswith(p)` (list-based so that it evaluates in the kernel). -/
def pyStartsWith (s p : String) : Bool :=
  p.data.isPrefixOf s.data

/-- Python `s.endswith(p)` (list-based so that it evaluates in the kernel). -/
def pyEndsWith (s p : String) : Bool :=
  p.data.isSuffixOf s.data

/-- Python `int()` applied to a rational value: truncation toward zero. -/
def pyInt (q : ℚ) : ℤ :=
  if 0 ≤ q then ⌊q⌋ else ⌈q⌉

/-- Python `int(a / b)` for integers `a`, `b`: the exact quotient truncated
toward zero (written with natural division so that it evaluates fast in the
kernel). -/
def pyIntDiv (a b : ℤ) : ℤ :=
  if 0 ≤ a * b then (a.natAbs / b.natAbs : ℕ) else -((a.natAbs / b.natAbs : ℕ) : ℤ)

/-! ## CPython `textwrap.wrap`, modelled for the source's call

`_draw_item_card` calls `textwrap.wrap(item.description, width=wrap_width)` with
all other options left at their defaults (`expand_tabs=True`,
`replace_whitespace=True`, `drop_whitespace=True`, `break_long_words=True`,
`max_lines=None`).  The model below follows `TextWrapper._munge_whitespace`,
`_split` and `_wrap_chunks` of CPython.  One simplification: `_split`'s
hyphen-aware word separator is modelled as plain splitting into maximal runs of
whitespace / non-whitespace (no concrete input used by any theorem below
contains a hyphen, where the two splittings agree).  CPython raises
`ValueError` for `width <= 0`; the model is total, and theorems that depend on
wrap fidelity restrict to card widths giving a positive wrap width. -/

/-- CPython `str.expandtabs(8)`: each tab becomes spaces up to the next multiple
of 8; the column resets after a line break. -/
def expandTabsGo : List Char → ℕ → List Char
  | [], _ => []
  | c :: cs, col =>
    if c == '\t' then
      List.replicate (8 - col % 8) ' ' ++ expandTabsGo cs (col + (8 - col % 8))
    else if c == '\n' || c == '\r' then
      c :: expandTabsGo cs 0
    else
      c :: expandTabsGo cs (col + 1)

/-- `TextWrapper._munge_whitespace`: expand tabs, then replace every whitespace
character with a single space. -/
def munge (s : String) : String :=
  ⟨(expandTabsGo s.data 0).map (fun c => if pyIsSpace c then ' ' else c)⟩

/-- One step of splitting a character list into maximal same-class runs;
the current run is kept reversed. -/
def splitRunsStep (acc : List String × List Char) (c : Char) : List String × List Char :=
  match acc.2 with
  | [] => (acc.1, [c])
  | d :: ds =>
    if pyIsSpace c == pyIsSpace d then (acc.1, c :: d :: ds)
    else (acc.1 ++ [(d :: ds).reverse.asString], [c])

/-- `TextWrapper._split` (hyphenless model): maximal runs of whitespace and
non-whitespace characters, in order. -/
def splitRuns (s : String) : List String :=
  match s.data.foldl splitRunsStep ([], []) with
  | (done, []) => done
  | (done, cur) => done ++ [cur.reverse.asString]

/-- Python `chunk.strip() == ''`: the chunk is empty or all whitespace. -/
def isWsChunk (s : String) : Bool :=
  s.data.all pyIsSpace

/-- The greedy inner loop of `_wrap_chunks`: move chunks onto the current line
while the accumulated length stays within `width`.  Returns the collected
chunks, the remaining chunks, and the accumulated length. -/
def collectChunks (width : ℕ) : List String → ℕ → List String × List String × ℕ
  | [], curLen => ([], [], curLen)
  | c :: cs, curLen =>
    if curLen + c.length ≤ width then
      match collectChunks width cs (curLen + c.length) with
      | (tk, rest, fl) => (c :: tk, rest, fl)
    else ([], c :: cs, curLen)

/-- `TextWrapper._handle_long_word` with `break_long_words=True` (hyphenless):
split `space_left` characters off the front of the over-long chunk. -/
def handleLongWord (width curLen : ℕ) (c : String) : String × String :=
  let spaceLeft := if width < 1 then 1 else width - curLen
  (c.take spaceLeft, c.drop spaceLeft)

/-- `_wrap_chunks`' trailing-whitespace drop: remove the last chunk of the
current line when it is pure whitespace (a single deletion, as in CPython). -/
def dropLastWs (cur : List String) : List String :=
  match cur.getLast? with
  | some l => if isWsChunk l then cur.dropLast else cur
  | none => cur

/-- One iteration of the `while chunks:` loop of `_wrap_chunks`: possibly drop
a leading whitespace chunk (only once at least one line exists), greedily fill
the line, split an over-long head chunk, drop trailing whitespace, and emit the
joined line if nonempty. -/
def wrapIter (width : ℕ) (haveLines : Bool) (chunks : List String) :
    Option String × List String :=
  let chunks1 := match chunks with
    | c :: cs => if haveLines && isWsChunk c then cs else c :: cs
    | [] => []
  match collectChunks width chunks1 0 with
  | (cur, rest, curLen) =>
    let step2 : List String × List String := match rest with
      | c :: cs =>
        if width < c.length then
          match handleLongWord width curLen c with
          | (piece, rem) => (cur ++ [piece], rem :: cs)
        else (cur, c :: cs)
      | [] => (cur, [])
    let cur3 := dropLastWs step2.1
    (if cur3.isEmpty then none else some (String.join cur3), step2.2)

/-- Fuelled outer loop of `_wrap_chunks`.  Every iteration consumes at least one
chunk or one character, so the fuel supplied by `textwrap_wrap` is never
exhausted on the inputs evaluated below. -/
def wrapGo (width : ℕ) : ℕ → List String → List String → List String
  | 0, _, acc => acc.reverse
  | _, [], acc => acc.reverse
  | Nat.succ fuel, c :: cs, acc =>
    match wrapIter width (!acc.isEmpty) (c :: cs) with
    | (some l, rest) => wrapGo width fuel rest (l :: acc)
    | (none, rest) => wrapGo width fuel rest acc

/-- CPython `textwrap.wrap(s, width)` with default options (see the section
comment for the modelling notes). -/
def textwrap_wrap (s : String) (width : ℕ) : List String :=
  wrapGo width (2 * s.length + 4) (splitRuns (munge s)) []

/-! ## Data model (`Severity`, `Category`, `BulletinItem`) -/

/-- The `Severity` enum of the source (member names as in Python). -/
inductive Severity
  | CRITICAL
  | HIGH
  | MEDIUM
  | LOW
  | INFO
deriving DecidableEq

/-- `Severity.value[0]`: the case-insensitive key string. -/
def Severity.key : Severity → String
  | .CRITICAL => "critical"
  | .HIGH => "high"
  | .MEDIUM => "medium"
  | .LOW => "low"
  | .INFO => "info"

/-- `Severity.value[1]`: the display color hex string. -/
def Severity.color : Severity → String
  | .CRITICAL => "#DC2626"
  | .HIGH => "#EA580C"
  | .MEDIUM => "#CA8A04"
  | .LOW => "#16A34A"
  | .INFO => "#2563EB"

/-- The `Category` enum of the source. -/
inductive Category
  | AGGIORNAMENTI
  | VULNERABILITA
  | PATCH
  | ADVISORY
  | INCIDENT
deriving DecidableEq

/-- `Category.value[0]`: the case-insensitive key string. -/
def Category.key : Category → String
  | .AGGIORNAMENTI => "aggiornamenti"
  | .VULNERABILITA => "vulnerabilita"
  | .PATCH => "patch"
  | .ADVISORY => "advisory"
  | .INCIDENT => "incident"

/-- `Category.value[2]`: the display label. -/
def Category.label : Category → String
  | .AGGIORNAMENTI => "Aggiornamenti"
  | .VULNERABILITA => "Vulnerabilità"
  | .PATCH => "Patch"
  | .ADVISORY => "Advisory"
  | .INCIDENT => "Incident"

/-- The `BulletinItem` dataclass. -/
structure BulletinItem where
  category : Category
  severity : Severity
  product : String
  description : String
  tags : List String := []
  cve_id : Option String := none
  version : Option String := none
  image_path : Option String := none
deriving DecidableEq

/-! ## Card layout (`_draw_item_card`)

The per-mode spacing table of `_draw_item_card` (the `if compact: ... else: ...`
block at its top), the content-height computation, and the vertical geometry of
everything the method draws. -/

def padding_top (compact : Bool) : ℕ := if compact then 30 else 40

def padding_bottom (compact : Bool) : ℕ := if compact then 35 else 50

/-- `tag_section_height`: `70 if item.tags else 0` compact, `90 if item.tags
else 0` normal. -/
def tag_section_height (compact : Bool) (tags : List String) : ℕ :=
  if tags.isEmpty then 0 else if compact then 70 else 90

def spacing_category (compact : Bool) : ℕ := if compact then 60 else 80

def spacing_product (compact : Bool) : ℕ := if compact then 55 else 70

def spacing_cve (compact : Bool) : ℕ := if compact then 70 else 90

def spacing_cve_desc (compact : Bool) : ℕ := if compact then 70 else 80

def spacing_no_cve (compact : Bool) : ℕ := if compact then 80 else 100

def line_height (compact : Bool) : ℕ := if compact then 44 else 58

def max_desc_lines (compact : Bool) : ℕ := if compact then 3 else 6

/-- `wrap_width = int(card_width / 22)` (exact for all feasible widths, so the
float division is modelled by natural division). -/
def wrap_width (card_width : ℕ) : ℕ := card_width / 22

/-- `wrapped_desc = textwrap.wrap(item.description, width=wrap_width)`. -/
def wrapped_desc (item : BulletinItem) (card_width : ℕ) : List String :=
  textwrap_wrap item.description (wrap_width card_width)

/-- `content_height + tag_section_height + padding_bottom` as accumulated by
`_draw_item_card` before the minimum-height stretch. -/
def card_height_raw (item : BulletinItem) (card_width : ℕ) (compact : Bool) : ℕ :=
  padding_top compact
    + spacing_category compact
    + spacing_product compact
    + (if pyTruthy item.cve_id then spacing_cve compact + spacing_cve_desc compact
       else spacing_no_cve compact)
    + min (wrapped_desc item card_width).length (max_desc_lines compact)
        * line_height compact
    + tag_section_height compact item.tags
    + padding_bottom compact

/-- The final card height: `if min_height > 0 and card_height < min_height:
card_height = min_height`. -/
def card_height_final (item : BulletinItem) (card_width : ℕ) (min_height : ℤ)
    (compact : Bool) : ℤ :=
  let ch : ℤ := card_height_raw item card_width compact
  if 0 < min_height ∧ ch < min_height then min_height else ch

/-! ### Tag chips (`_draw_tag` and the tag loop of `_draw_item_card`) -/

def tag_padding_x (compact : Bool) : ℕ := if compact then 28 else 40

def tag_chip_height (compact : Bool) : ℕ := if compact then 52 else 68

/-- The trailing gap added by `_draw_tag`'s return value
(`tag_width + (16 if not compact else 12)`). -/
def tag_gap (compact : Bool) : ℕ := if compact then 12 else 16

/-- Width of one chip: `text_width + padding_x * 2`, where `text_width` is the
pixel width `draw.textbbox` reports for the tag text (passed in as `measure`). -/
def tag_chip_width (measure : String → ℕ) (tag : String) (compact : Bool) : ℕ :=
  measure tag + 2 * tag_padding_x compact

/-- The tag placement loop: starting at `tag_x`, stop when
`tag_x + 200 > rightLimit`, otherwise draw the chip over
`[tag_x, tag_x + chip width]` and advance by chip width plus gap.
Each list entry is `(tag, left edge, right edge)`. -/
def tag_chips_go (measure : String → ℕ) (compact : Bool) (rightLimit : ℤ) :
    List String → ℤ → List (String × ℤ × ℤ)
  | [], _ => []
  | t :: ts, tagX =>
    if rightLimit < tagX + 200 then []
    else
      (t, tagX, tagX + (tag_chip_width measure t compact : ℤ)) ::
        tag_chips_go measure compact rightLimit ts
          (tagX + (tag_chip_width measure t compact : ℤ) + (tag_gap compact : ℤ))

/-- The tag row of `_draw_item_card`: at most `6` (normal) / `4` (compact) tags
are attempted (`item.tags[:max_tags]`), starting at `inner_x = x + 50`, with
right limit `x + card_width - 40`. -/
def tag_chips (measure : String → ℕ) (tags : List String) (x : ℤ)
    (card_width : ℕ) (compact : Bool) : List (String × ℤ × ℤ) :=
  tag_chips_go measure compact (x + (card_width : ℤ) - 40)
    (tags.take (if compact then 4 else 6)) (x + 50)

/-- A plausible stand-in for the pixel width `PIL.ImageDraw.textbbox` reports
for a piece of text: the source's own per-character width estimate of 22 px
(cf. `wrap_width = int(card_width / 22)`). -/
def approxTextWidth (s : String) : ℕ := 22 * s.length

/-! ### Geometry actually drawn by `_draw_item_card` -/

/-- Vertical (and, for chips, horizontal) geometry of everything
`_draw_item_card` draws, plus the text it renders. -/
structure CardGeometry where
  /-- Top edge of the gradient background rectangle (`y`). -/
  top : ℤ
  /-- Bottom edge of the background rectangle (`y + card_height`). -/
  bottom : ℤ
  /-- Top of the severity accent bar (`y + 24`). -/
  accentTop : ℤ
  /-- Bottom of the accent bar (`y + card_height - 24`). -/
  accentBottom : ℤ
  /-- The CVE line text drawn, verbatim, when `item.cve_id` is truthy. -/
  cveText : Option String
  /-- The description lines drawn (`wrapped_desc[:max_desc_lines]`). -/
  descLines : List String
  /-- Top edge of the tag row when tags are present
  (`y + card_height - padding_bottom - tag_height`). -/
  tagRowTop : Option ℤ
  /-- Bottom edge of the tag row (`y + card_height - padding_bottom`). -/
  tagRowBottom : Option ℤ
  /-- The chips drawn: `(tag, left, right)`. -/
  chips : List (String × ℤ × ℤ)
  /-- The method's return value, `y + card_height + 40`. -/
  endY : ℤ

/-- Shallow embedding of `_draw_item_card`: the geometry it draws, as a pure
function of the item, card position/width, minimum height and mode. -/
def draw_item_card (measure : String → ℕ) (x y : ℤ) (item : BulletinItem)
    (card_width : ℕ) (min_height : ℤ) (compact : Bool) : CardGeometry :=
  let H := card_height_final item card_width min_height compact
  { top := y
    bottom := y + H
    accentTop := y + 24
    accentBottom := y + H - 24
    cveText := if pyTruthy item.cve_id then item.cve_id else none
    descLines := (wrapped_desc item card_width).take (max_desc_lines compact)
    tagRowTop :=
      if item.tags.isEmpty then none
      else some (y + H - (padding_bottom compact : ℤ) - (tag_chip_height compact : ℤ))
    tagRowBottom :=
      if item.tags.isEmpty then none
      else some (y + H - (padding_bottom compact : ℤ))
    chips :=
      if item.tags.isEmpty then []
      else tag_chips measure item.tags x card_width compact
    endY := y + H + 40 }

/-! ## Color utilities (`_hex_to_rgb`, `_blend_colors`) -/

/-- Value of one hex digit, as read by Python `int(.., 16)` (both cases).
Python raises on a non-hex digit; the model returns 0 there, and every hex
string a theorem touches is well formed. -/
def hexDigit (c : Char) : ℕ :=
  if '0' ≤ c ∧ c ≤ '9' then c.toNat - 48
  else if 'a' ≤ c ∧ c ≤ 'f' then c.toNat - 87
  else if 'A' ≤ c ∧ c ≤ 'F' then c.toNat - 55
  else 0

/-- `int(hex_color[i:i+2], 16)`. -/
def hexPair (a b : Char) : ℕ := 16 * hexDigit a + hexDigit b

/-- `_hex_to_rgb`: strip leading `#` characters, then read the three 2-digit
channel groups. -/
def hex_to_rgb (s : String) : ℕ × ℕ × ℕ :=
  let ds := s.data.dropWhile (fun c => c == '#')
  (hexPair (ds.getD 0 '0') (ds.getD 1 '0'),
   hexPair (ds.getD 2 '0') (ds.getD 3 '0'),
   hexPair (ds.getD 4 '0') (ds.getD 5 '0'))

/-- One channel of `_blend_colors`: `int(c1 + (c2 - c1) * factor)`.  The Python
float arithmetic is modelled with exact rationals; for channels in `0..255`
and a factor in `[0, 1]` the float evaluation can never cross an integer the
exact value does not reach, so `pyInt` of the exact value is faithful. -/
def blendChannel (c1 c2 : ℤ) (f : ℚ) : ℤ :=
  pyInt ((c1 : ℚ) + ((c2 : ℚ) - (c1 : ℚ)) * f)

/-- `_blend_colors` over RGB triples. -/
def blend_colors (c1 c2 : ℤ × ℤ × ℤ) (f : ℚ) : ℤ × ℤ × ℤ :=
  (blendChannel c1.1 c2.1 f, blendChannel c1.2.1 c2.2.1 f,
   blendChannel c1.2.2 c2.2.2 f)

/-! ## Logo background replacement (`_draw_header`, lines 502–546)

The per-pixel body of the replacement loops.  The policy is
`config.logo_bg_color : Option String`; a falsy value (absent/empty, the
config's documented "auto-detect") selects the combined dark-and-light rule. -/

/-- One pixel `(r, g, b, a)` under the background-replacement policy, with
`bg` the canvas background RGB. -/
def replace_logo_pixel (bg : ℕ × ℕ × ℕ) (logo_bg_color : Option String)
    (px : ℕ × ℕ × ℕ × ℕ) : ℕ × ℕ × ℕ × ℕ :=
  let r := px.1
  let g := px.2.1
  let b := px.2.2.1
  let a := px.2.2.2
  let repl : ℕ × ℕ × ℕ × ℕ := (bg.1, bg.2.1, bg.2.2, a)
  if pyTruthy logo_bg_color then
    let t := pyLower (logo_bg_color.getD "")
    if t = "black" ∨ t = "dark" ∨ t = "nero" ∨ t = "scuro" then
      if r < 30 ∧ g < 30 ∧ b < 30 then repl else px
    else if t = "white" ∨ t = "light" ∨ t = "bianco" ∨ t = "chiaro" then
      if 225 < r ∧ 225 < g ∧ 225 < b then repl else px
    else if pyStartsWith t "#" then
      let target := hex_to_rgb (logo_bg_color.getD "")
      if ((r : ℤ) - (target.1 : ℤ)).natAbs < 30
          ∧ ((g : ℤ) - (target.2.1 : ℤ)).natAbs < 30
          ∧ ((b : ℤ) - (target.2.2 : ℤ)).natAbs < 30 then repl else px
    else px
  else
    if r < 30 ∧ g < 30 ∧ b < 30 then repl
    else if 225 < r ∧ 225 < g ∧ 225 < b then repl
    else px

/-! ## Page composition (`generate`)

The vertical layout skeleton of `generate`: header at the top (the header's
last drawn element is the separator line at `y = 260`, and `_draw_header`
returns 300), then the card, then the optional attached image, then the footer.
The attached image is abstracted to its natural pixel size `(w, h)`, present
exactly when `item.image_path` is truthy, the file exists and loads. -/

/-- The `y` of the header separator line (`draw.line((80, 260, ...))`). -/
def headerSeparatorY : ℤ := 260

/-- `_draw_header`'s return value, the `y` where content starts. -/
def headerBottomY : ℤ := 300

/-- Aspect-fit of the attached image (`generate`, lines 783–792):
`(new_width, new_height)` given the natural size and the bounds.  Python's
float `img_ratio = w / h` is modelled by the exact quotient, so
`int(new_width / img_ratio)` becomes `pyIntDiv (new_width * h) w` and
`int(new_height * img_ratio)` becomes `pyIntDiv (max_h * w) h`. -/
def fitImage (w h : ℕ) (maxW maxH : ℤ) : ℤ × ℤ :=
  let newW : ℤ := min (w : ℤ) maxW
  let newH : ℤ := pyIntDiv (newW * (h : ℤ)) (w : ℤ)
  if maxH < newH then (pyIntDiv (maxH * (w : ℤ)) (h : ℤ), maxH)
  else (newW, newH)

/-- Vertical layout produced by one `generate` call. -/
structure PageLayout where
  /-- `card_width = config.width - 160`. -/
  cardWidth : ℕ
  /-- `available_height = height - y_offset - footer_height - 40`. -/
  availableHeight : ℤ
  /-- `space_for_image = available_height - min_card_height - 40` (only
  meaningful when an image is attached). -/
  spaceForImage : ℤ
  /-- Whether the attached image is actually drawn. -/
  imageDrawn : Bool
  /-- The resized image width (0 when no image is drawn). -/
  imageW : ℤ
  /-- The resized image height (0 when no image is drawn). -/
  imageH : ℤ
  /-- `compact` flag passed to `_draw_item_card`. -/
  compactMode : Bool
  /-- `card_min_height` passed to `_draw_item_card`. -/
  cardMinHeight : ℤ
  /-- The drawn card's geometry. -/
  card : CardGeometry
  /-- `img_y = card_end_y`: top edge of the pasted image. -/
  imageTop : ℤ
  /-- Bottom edge of the pasted image (`imageTop` when none is drawn). -/
  imageBottom : ℤ
  /-- Top of the footer region `generate` reserves (`height - 120`). -/
  footerReservedTop : ℤ
  /-- The `y` of the footer separator line (`height - 110`). -/
  footerLineY : ℤ
  /-- The `y` of the footer text (`height - 80`). -/
  footerTextY : ℤ

/-- Shallow embedding of `generate`'s vertical layout.  `attached` is
`some (w, h)` when `item.image_path` names a loadable image of natural size
`w × h`. -/
def generate_layout (measure : String → ℕ) (cfgWidth cfgHeight : ℕ)
    (item : BulletinItem) (attached : Option (ℕ × ℕ)) : PageLayout :=
  let card_width := cfgWidth - 160
  let available : ℤ := (cfgHeight : ℤ) - headerBottomY - 120 - 40
  let space : ℤ := available - 450 - 40
  let mkNoImage : PageLayout :=
    let card := draw_item_card measure 80 headerBottomY item card_width available false
    { cardWidth := card_width
      availableHeight := available
      spaceForImage := space
      imageDrawn := false
      imageW := 0
      imageH := 0
      compactMode := false
      cardMinHeight := available
      card := card
      imageTop := card.endY
      imageBottom := card.endY
      footerReservedTop := (cfgHeight : ℤ) - 120
      footerLineY := (cfgHeight : ℤ) - 110
      footerTextY := (cfgHeight : ℤ) - 80 }
  match attached with
  | none => mkNoImage
  | some (w, h) =>
    if 100 < space then
      let wh := fitImage w h ((card_width : ℤ) - 80) (min space 600)
      let minH : ℤ := available - wh.2 - 40
      let card := draw_item_card measure 80 headerBottomY item card_width minH true
      { cardWidth := card_width
        availableHeight := available
        spaceForImage := space
        imageDrawn := true
        imageW := wh.1
        imageH := wh.2
        compactMode := true
        cardMinHeight := minH
        card := card
        imageTop := card.endY
        imageBottom := card.endY + wh.2
        footerReservedTop := (cfgHeight : ℤ) - 120
        footerLineY := (cfgHeight : ℤ) - 110
        footerTextY := (cfgHeight : ℤ) - 80 }
    else mkNoImage

/-! ## Validation and batch driver

A bulletin record, as read from JSON, is modelled with optional string fields
(`None`/absent and the empty string are both falsy, matching the source's
`if field not in data or not data[field]`).  File loading is abstracted: each
batch file arrives as a name plus either a load/parse/format error message or
the list of record dicts. -/

/-- A raw bulletin dict. -/
structure BulletinDict where
  category : Option String := none
  severity : Option String := none
  product : Option String := none
  description : Option String := none
  tags : List String := []
  cve_id : Option String := none
  version : Option String := none
  image : Option String := none

/-- `field not in data or not data[field]`. -/
def fieldMissing : Option String → Bool
  | none => true
  | some s => s.isEmpty

/-- `valid_categories = [c.value[0] for c in Category]`. -/
def valid_categories : List String :=
  ["aggiornamenti", "vulnerabilita", "patch", "advisory", "incident"]

/-- `valid_severities = [s.value[0] for s in Severity]`. -/
def valid_severities : List String :=
  ["critical", "high", "medium", "low", "info"]

def categoryUnknown (d : BulletinDict) : Bool :=
  !(valid_categories.contains (pyLower (d.category.getD "")))

def severityUnknown (d : BulletinDict) : Bool :=
  !(valid_severities.contains (pyLower (d.severity.getD "")))

def productTooShort (d : BulletinDict) : Bool :=
  (pyStrip (d.product.getD "")).length < 2

def descriptionTooShort (d : BulletinDict) : Bool :=
  (pyStrip (d.description.getD "")).length < 10

/-- The CVE check: present and truthy, but uppercased it does not start with
`CVE-`. -/
def cveBad (d : BulletinDict) : Bool :=
  match d.cve_id with
  | none => false
  | some c => if c.isEmpty then false else !(pyStartsWith (pyUpper c) "CVE-")

def requiredFieldMsg (index : ℕ) (f : String) : String :=
  "Bollettino #" ++ toString index ++ ": Campo obbligatorio '" ++ f
    ++ "' mancante o vuoto"

def categoryMsg (index : ℕ) (c : String) : String :=
  "Bollettino #" ++ toString index ++ ": Category '" ++ c
    ++ "' non valida. Usare: " ++ String.intercalate ", " valid_categories

def severityMsg (index : ℕ) (s : String) : String :=
  "Bollettino #" ++ toString index ++ ": Severity '" ++ s
    ++ "' non valida. Usare: " ++ String.intercalate ", " valid_severities

def productMsg (index : ℕ) : String :=
  "Bollettino #" ++ toString index
    ++ ": Il nome del prodotto deve essere di almeno 2 caratteri"

def descriptionMsg (index : ℕ) : String :=
  "Bollettino #" ++ toString index
    ++ ": La descrizione deve essere di almeno 10 caratteri"

def cveMsg (index : ℕ) : String :=
  "Bollettino #" ++ toString index ++ ": CVE ID deve iniziare con 'CVE-'"

/-- `validate_bulletin_data(data, index)`, checks in source order. -/
def validate_bulletin_data (d : BulletinDict) (index : ℕ) : Bool × String :=
  if fieldMissing d.category then (false, requiredFieldMsg index "category")
  else if fieldMissing d.severity then (false, requiredFieldMsg index "severity")
  else if fieldMissing d.product then (false, requiredFieldMsg index "product")
  else if fieldMissing d.description then (false, requiredFieldMsg index "description")
  else if categoryUnknown d then (false, categoryMsg index (d.category.getD ""))
  else if severityUnknown d then (false, severityMsg index (d.severity.getD ""))
  else if productTooShort d then (false, productMsg index)
  else if descriptionTooShort d then (false, descriptionMsg index)
  else if cveBad d then (false, cveMsg index)
  else (true, "")

/-- `generate_from_dict`'s category resolution:
`category_map.get(data["category"].lower(), Category.ADVISORY)`. -/
def resolveCategory (s : String) : Category :=
  if pyLower s = "aggiornamenti" then .AGGIORNAMENTI
  else if pyLower s = "vulnerabilita" then .VULNERABILITA
  else if pyLower s = "patch" then .PATCH
  else if pyLower s = "advisory" then .ADVISORY
  else if pyLower s = "incident" then .INCIDENT
  else .ADVISORY

/-- `generate_from_dict`'s severity resolution, default `Severity.MEDIUM`. -/
def resolveSeverity (s : String) : Severity :=
  if pyLower s = "critical" then .CRITICAL
  else if pyLower s = "high" then .HIGH
  else if pyLower s = "medium" then .MEDIUM
  else if pyLower s = "low" then .LOW
  else if pyLower s = "info" then .INFO
  else .MEDIUM

/-- The `BulletinItem` constructed by `generate_from_dict` (it reads
`data["product"]` and `data["description"]` unconditionally, so those two must
be present for the call to get past the dictionary lookups). -/
def generate_from_dict_item (d : BulletinDict) : Option BulletinItem := do
  let c ← d.category
  let s ← d.severity
  let p ← d.product
  let ds ← d.description
  some { category := resolveCategory c
         severity := resolveSeverity s
         product := p
         description := ds
         tags := d.tags
         cve_id := d.cve_id
         version := d.version
         image_path := d.image }

/-- The validation loop of `load_bulletins_from_file`: validate each record with
1-based index, returning the first failure message. -/
def validateAll : List BulletinDict → ℕ → Option String
  | [], _ => none
  | d :: ds, i =>
    match validate_bulletin_data d i with
    | (true, _) => validateAll ds (i + 1)
    | (false, msg) => some msg

/-- `load_bulletins_from_file`, with the JSON loading and the list/`bulletins`/
`items` format dispatch abstracted into the `Except` input: a parse/load error
passes through, and an intact record list is validated as a whole. -/
def load_bulletins_from_file (content : Except String (List BulletinDict)) :
    Except String (List BulletinDict) :=
  match content with
  | .error e => .error e
  | .ok bs =>
    match validateAll bs 1 with
    | some msg => .error msg
    | none => .ok bs

/-- `os.path.splitext` for the `*.json` files `glob` returns. -/
def baseName (n : String) : String :=
  if pyEndsWith n ".json" then n.dropRight 5 else n

/-- `f"{i:02d}"`. -/
def pad2 (n : ℕ) : String :=
  if n < 10 then "0" ++ toString n else toString n

/-- One file's contribution to `(successes, failures, errors)` in
`process_batch`.  Rendering itself is modelled as always succeeding
(`generate_from_dict` is total on records that passed validation). -/
def processFile (name : String) (content : Except String (List BulletinDict)) :
    ℕ × ℕ × List String :=
  match load_bulletins_from_file content with
  | .error e => (0, 1, ["❌ " ++ name ++ ": " ++ e])
  | .ok bs => (bs.length, 0, [])

/-- The loop body of `process_batch` accumulating over files. -/
def batchStep (acc : ℕ × ℕ × List String)
    (f : String × Except String (List BulletinDict)) : ℕ × ℕ × List String :=
  let r := processFile f.1 f.2
  (acc.1 + r.1, acc.2.1 + r.2.1, acc.2.2 ++ r.2.2)

/-- `process_batch(input_dir, ...)` over the directory's JSON files (in glob
order), returning `(successes, failures, errors)`. -/
def process_batch (input_dir : String)
    (files : List (String × Except String (List BulletinDict))) :
    ℕ × ℕ × List String :=
  if files.isEmpty then (0, 0, ["Nessun file JSON trovato in " ++ input_dir])
  else files.foldl batchStep (0, 0, [])

/-- The PNG files one batch file produces: `base.png` for a single-record file,
`base_XX.png` (1-based, zero-padded) otherwise; nothing on a load/validation
failure. -/
def fileOutputs (name : String) (content : Except String (List BulletinDict)) :
    List String :=
  match load_bulletins_from_file content with
  | .error _ => []
  | .ok bs =>
    if bs.length = 1 then [baseName name ++ ".png"]
    else (List.range bs.length).map (fun i => baseName name ++ "_" ++ pad2 (i + 1) ++ ".png")

/-- All PNG files a batch run writes, in order. -/
def batchOutputs (files : List (String × Except String (List BulletinDict))) :
    List String :=
  files.foldl (fun acc f => acc ++ fileOutputs f.1 f.2) []

/-- `main`'s batch exit code: `sys.exit(0 if failures == 0 else 1)`. -/
def batchExitCode (failures : ℕ) : ℕ :=
  if failures = 0 then 0 else 1

/-- Pointwise combination of two `(successes, failures, errors)` triples. -/
def combineBatch (a b : ℕ × ℕ × List String) : ℕ × ℕ × List String :=
  (a.1 + b.1, a.2.1 + b.2.1, a.2.2 ++ b.2.2)

/-! ## Concrete fixtures used by the theorems below -/

/-- A valid RGB triple: every channel in `0..255`. -/
abbrev validRgb (c : ℤ × ℤ × ℤ) : Prop :=
  0 ≤ c.1 ∧ c.1 ≤ 255 ∧ 0 ≤ c.2.1 ∧ c.2.1 ≤ 255 ∧ 0 ≤ c.2.2 ∧ c.2.2 ≤ 255

/-- `v` lies between channels `a` and `b`. -/
abbrev channelBetween (a b v : ℤ) : Prop :=
  min a b ≤ v ∧ v ≤ max a b

/-- A compact-mode item exercising all card rows: CVE line present, a tag, and
a description that wraps to three lines at compact card widths used below. -/
def itemC2 : BulletinItem :=
  { category := .VULNERABILITA
    severity := .HIGH
    product := "ProductX"
    description := String.mk (List.replicate 50 'a')
    tags := ["tag"]
    cve_id := some "CVE-2024-0001"
    image_path := some "img.png" }

/-- A small item whose compact card content (304 px) fits inside every reserved
minimum card height used below. -/
def itemSmall : BulletinItem :=
  { category := .PATCH
    severity := .LOW
    product := "OpenSSL"
    description := "Fixes a bug."
    image_path := some "img.png" }

/-- An item whose description is two paragraphs separated by a blank line. -/
def itemC4 : BulletinItem :=
  { category := .ADVISORY
    severity := .MEDIUM
    product := "ProductY"
    description := "aaaaaaaaaa\n\nbbbbbbbbbb" }

/-- An item carrying a lowercase CVE id. -/
def itemLowerCve : BulletinItem :=
  { category := .VULNERABILITA
    severity := .CRITICAL
    product := "LibFoo"
    description := "Remote code execution issue."
    cve_id := some "cve-2024-1234" }

/-- A 200-character tag (wider than any card at the 22 px/char estimate). -/
def longTag : String := String.mk (List.replicate 200 'a')

/-- A fully valid record. -/
def goodRec : BulletinDict :=
  { category := some "patch"
    severity := some "high"
    product := some "OpenSSL"
    description := some "A buffer overflow was fixed in the TLS handshake." }

/-- A record whose required `product` field is missing. -/
def badRec : BulletinDict :=
  { category := some "advisory"
    severity := some "low"
    description := some "Something descriptive here." }

/-- A record with unknown category `foo` and unknown severity `bar`, all other
fields valid. -/
def fooBarRec : BulletinDict :=
  { category := some "foo"
    severity := some "bar"
    product := some "GoodProd"
    description := some "A long enough description." }

/-- A valid record with an uppercase CVE id. -/
def upperCveRec : BulletinDict :=
  { category := some "vulnerabilita"
    severity := some "critical"
    product := some "LibFoo"
    description := some "Remote code execution issue."
    cve_id := some "CVE-2024-1234" }

/-- A valid record with a lowercase CVE id. -/
def lowerCveRec : BulletinDict :=
  { category := some "vulnerabilita"
    severity := some "critical"
    product := some "LibFoo"
    description := some "Remote code execution issue."
    cve_id := some "cve-2024-1234" }

/-! ## Helper lemmas -/

theorem pyInt_intCast (n : ℤ) : pyInt (n : ℚ) = n := by
  unfold pyInt
  split
  · exact Int.floor_intCast n
  · exact Int.ceil_intCast n

theorem pyInt_of_nonneg {q : ℚ} (h : 0 ≤ q) : pyInt q = ⌊q⌋ := by
  unfold pyInt
  exact if_pos h

theorem blendChannel_between (a b : ℤ) (f : ℚ) (ha : 0 ≤ a) (hb : 0 ≤ b)
    (hf0 : 0 ≤ f) (hf1 : f ≤ 1) :
    min a b ≤ blendChannel a b f ∧ blendChannel a b f ≤ max a b := by
  have hlo : ((min a b : ℤ) : ℚ) ≤ (a : ℚ) + ((b : ℚ) - (a : ℚ)) * f := by
    rcases le_total a b with hab | hab
    · have : (0 : ℚ) ≤ ((b : ℚ) - (a : ℚ)) * f := by
        apply mul_nonneg _ hf0
        have : (a : ℚ) ≤ (b : ℚ) := by exact_mod_cast hab
        linarith
      have hm : min a b = a := min_eq_left hab
      rw [hm]
      linarith
    · have hba : (b : ℚ) ≤ (a : ℚ) := by exact_mod_cast hab
      have : ((b : ℚ) - (a : ℚ)) * f ≥ (b : ℚ) - (a : ℚ) := by nlinarith
      have hm : min a b = b := min_eq_right hab
      rw [hm]
      linarith
  have hhi : (a : ℚ) + ((b : ℚ) - (a : ℚ)) * f ≤ ((max a b : ℤ) : ℚ) := by
    rcases le_total a b with hab | hab
    · have hab' : (a : ℚ) ≤ (b : ℚ) := by exact_mod_cast hab
      have : ((b : ℚ) - (a : ℚ)) * f ≤ (b : ℚ) - (a : ℚ) := by nlinarith
      have hm : max a b = b := max_eq_right hab
      rw [hm]
      linarith
    · have hba : (b : ℚ) ≤ (a : ℚ) := by exact_mod_cast hab
      have : ((b : ℚ) - (a : ℚ)) * f ≤ 0 := by
        apply mul_nonpos_of_nonpos_of_nonneg _ hf0
        linarith
      have hm : max a b = a := max_eq_left hab
      rw [hm]
      linarith
  have hv0 : (0 : ℚ) ≤ (a : ℚ) + ((b : ℚ) - (a : ℚ)) * f := by
    have h0 : (0 : ℚ) ≤ ((min a b : ℤ) : ℚ) := by
      have : 0 ≤ min a b := le_min ha hb
      exact_mod_cast this
    linarith
  have hfl : blendChannel a b f = ⌊(a : ℚ) + ((b : ℚ) - (a : ℚ)) * f⌋ :=
    pyInt_of_nonneg hv0
  constructor
  · rw [hfl]
    exact Int.le_floor.mpr hlo
  · rw [hfl]
    calc ⌊(a : ℚ) + ((b : ℚ) - (a : ℚ)) * f⌋
        ≤ ⌊((max a b : ℤ) : ℚ)⌋ := Int.floor_le_floor hhi
      _ = max a b := Int.floor_intCast _

theorem card_height_raw_lb (item : BulletinItem) (card_width : ℕ)
    (compact : Bool) : 260 ≤ card_height_raw item card_width compact := by
  unfold card_height_raw
  have hd : 0 ≤ min (wrapped_desc item card_width).length (max_desc_lines compact)
      * line_height compact := Nat.zero_le _
  generalize min (wrapped_desc item card_width).length (max_desc_lines compact)
      * line_height compact = d at hd
  unfold padding_top spacing_category spacing_product spacing_cve
    spacing_cve_desc spacing_no_cve padding_bottom tag_section_height
  cases compact <;> split_ifs <;> omega

theorem card_height_final_eq_max (item : BulletinItem) (card_width : ℕ)
    (min_height : ℤ) (compact : Bool) :
    card_height_final item card_width min_height compact
      = max ((card_height_raw item card_width compact : ℕ) : ℤ) min_height := by
  have h : (260 : ℤ) ≤ (card_height_raw item card_width compact : ℤ) := by
    exact_mod_cast card_height_raw_lb item card_width compact
  unfold card_height_final
  dsimp only
  rcases max_cases ((card_height_raw item card_width compact : ℕ) : ℤ) min_height
    with ⟨he, hle⟩ | ⟨he, hlt⟩ <;> rw [he] <;> split_ifs with h1 <;> omega

theorem tag_gap_pos (compact : Bool) : 12 ≤ tag_gap compact := by
  cases compact <;> simp [tag_gap]

theorem tag_chips_go_spec (measure : String → ℕ) (compact : Bool)
    (rightLimit : ℤ) (ts : List String) : ∀ tagX : ℤ,
    (tag_chips_go measure compact rightLimit ts tagX).length ≤ ts.length ∧
    (tag_chips_go measure compact rightLimit ts tagX).map Prod.fst
      = ts.take (tag_chips_go measure compact rightLimit ts tagX).length ∧
    (tag_chips_go measure compact rightLimit ts tagX).Forall
      (fun ch => ch.2.1 + 200 ≤ rightLimit) ∧
    (tag_chips_go measure compact rightLimit ts tagX).Forall
      (fun ch => tagX ≤ ch.2.1) ∧
    List.Chain' (fun p q => p.2.1 < q.2.1)
      (tag_chips_go measure compact rightLimit ts tagX) := by
  induction ts with
  | nil => intro tagX; simp [tag_chips_go]
  | cons t ts ih =>
    intro tagX
    by_cases h : rightLimit < tagX + 200
    · simp [tag_chips_go, h]
    · obtain ⟨ih1, ih2, ih3, ih4, ih5⟩ :=
        ih (tagX + (tag_chip_width measure t compact : ℤ) + (tag_gap compact : ℤ))
      have hstep : tagX < tagX + (tag_chip_width measure t compact : ℤ)
          + (tag_gap compact : ℤ) := by
        have := tag_gap_pos compact
        omega
      simp only [tag_chips_go, if_neg h]
      refine ⟨by simpa using Nat.succ_le_succ ih1, ?_, ?_, ?_, ?_⟩
      · simpa [List.take_succ_cons] using ih2
      · refine List.forall_cons _ _ _ |>.mpr ⟨?_, ih3⟩
        show tagX + 200 ≤ rightLimit
        omega
      · refine List.forall_cons _ _ _ |>.mpr ⟨le_refl tagX, ?_⟩
        exact ih4.imp (fun ch hch => le_trans (le_of_lt hstep) hch)
      · refine List.chain'_cons'.mpr ⟨?_, ih5⟩
        intro q hq
        have hmem := List.mem_of_mem_head? hq
        have := (List.forall_iff_forall_mem.mp ih4) q hmem
        show tagX < q.2.1
        omega

theorem foldl_batchStep_shift (fs : List (String × Except String (List BulletinDict))) :
    ∀ acc, fs.foldl batchStep acc = combineBatch acc (fs.foldl batchStep (0, 0, [])) := by
  induction fs with
  | nil => intro acc; simp [combineBatch]
  | cons f fs ih =>
    intro acc
    rw [List.foldl_cons, List.foldl_cons, ih (batchStep acc f),
      ih (batchStep (0, 0, []) f)]
    simp [combineBatch, batchStep, Nat.add_assoc, List.append_assoc]

/-! ## Claim theorems -/

/-- C10: for RGB triples with channels in `0..255` and a blend factor in
`[0, 1]`, every channel of `_blend_colors` lies between the corresponding
channels of the two inputs (hence the result is again a valid `0..255` color);
with factor `0` it returns the first color exactly, and blending any color with
itself returns that color for every factor. -/
theorem C10_blend_colors (c1 c2 : ℤ × ℤ × ℤ) (f : ℚ) (hf0 : 0 ≤ f) (hf1 : f ≤ 1)
    (h1 : validRgb c1) (h2 : validRgb c2) :
    channelBetween c1.1 c2.1 (blend_colors c1 c2 f).1 ∧
    channelBetween c1.2.1 c2.2.1 (blend_colors c1 c2 f).2.1 ∧
    channelBetween c1.2.2 c2.2.2 (blend_colors c1 c2 f).2.2 ∧
    validRgb (blend_colors c1 c2 f) ∧
    blend_colors c1 c2 0 = c1 ∧
    (∀ c : ℤ × ℤ × ℤ, blend_colors c c f = c) := by
  obtain ⟨ha1, ha2, hb1, hb2, hc1, hc2⟩ := h1
  obtain ⟨ha1', ha2', hb1', hb2', hc1', hc2'⟩ := h2
  have B1 := blendChannel_between c1.1 c2.1 f ha1 ha1' hf0 hf1
  have B2 := blendChannel_between c1.2.1 c2.2.1 f hb1 hb1' hf0 hf1
  have B3 := blendChannel_between c1.2.2 c2.2.2 f hc1 hc1' hf0 hf1
  have hzero : ∀ u v : ℤ, blendChannel u v 0 = u := by
    intro u v
    unfold blendChannel
    rw [mul_zero, add_zero]
    exact pyInt_intCast u
  have hself : ∀ u : ℤ, blendChannel u u f = u := by
    intro u
    unfold blendChannel
    rw [sub_self, zero_mul, add_zero]
    exact pyInt_intCast u
  refine ⟨B1, B2, B3,
    ⟨le_trans (le_min ha1 ha1') B1.1, le_trans B1.2 (max_le ha2 ha2'),
     le_trans (le_min hb1 hb1') B2.1, le_trans B2.2 (max_le hb2 hb2'),
     le_trans (le_min hc1 hc1') B3.1, le_trans B3.2 (max_le hc2 hc2')⟩,
    ?_, ?_⟩
  · show (blendChannel c1.1 c2.1 0, blendChannel c1.2.1 c2.2.1 0,
      blendChannel c1.2.2 c2.2.2 0) = c1
    rw [hzero, hzero, hzero]
  · intro c
    show (blendChannel c.1 c.1 f, blendChannel c.2.1 c.2.1 f,
      blendChannel c.2.2 c.2.2 f) = c
    rw [hself, hself, hself]

/-- C10 witness: the theorem applied to concrete colors and factor `1/2`. -/
theorem C10_blend_colors_witness :
    (0 : ℚ) ≤ 1 / 2 ∧ (1 / 2 : ℚ) ≤ 1 ∧
    validRgb ((10 : ℤ), (200 : ℤ), (255 : ℤ)) ∧
    validRgb ((250 : ℤ), (0 : ℤ), (255 : ℤ)) ∧
    channelBetween 10 250 (blend_colors (10, 200, 255) (250, 0, 255) (1 / 2)).1 :=
  ⟨by norm_num, by norm_num, by decide, by decide,
    (C10_blend_colors (10, 200, 255) (250, 0, 255) (1 / 2) (by norm_num)
      (by norm_num) (by decide) (by decide)).1⟩

/-- C7: the logo background-replacement pixel rule.  Policy `"dark"` replaces a
pixel exactly when all three channels are below 30; an explicit hex policy
`"#FFFFFF"` replaces it exactly when every channel differs from the target
channel by less than the tolerance 30; the auto policy (no color configured)
applies the dark rule and then the light rule; the original alpha is always
preserved and non-matching pixels are unchanged; `(10,10,10)` is replaced under
`"dark"` while `(50,50,50)` is not. -/
theorem C7_replace_logo_pixel (bg : ℕ × ℕ × ℕ) (r g b a : ℕ) :
    (replace_logo_pixel bg (some "dark") (r, g, b, a)
      = if r < 30 ∧ g < 30 ∧ b < 30 then (bg.1, bg.2.1, bg.2.2, a)
        else (r, g, b, a)) ∧
    (replace_logo_pixel bg (some "#FFFFFF") (r, g, b, a)
      = if ((r : ℤ) - 255).natAbs < 30 ∧ ((g : ℤ) - 255).natAbs < 30
            ∧ ((b : ℤ) - 255).natAbs < 30
        then (bg.1, bg.2.1, bg.2.2, a)
        else (r, g, b, a)) ∧
    (replace_logo_pixel bg none (r, g, b, a)
      = if r < 30 ∧ g < 30 ∧ b < 30 then (bg.1, bg.2.1, bg.2.2, a)
        else if 225 < r ∧ 225 < g ∧ 225 < b then (bg.1, bg.2.1, bg.2.2, a)
        else (r, g, b, a)) ∧
    (∀ pol : Option String, (replace_logo_pixel bg pol (r, g, b, a)).2.2.2 = a) ∧
    replace_logo_pixel bg (some "dark") (10, 10, 10, a) = (bg.1, bg.2.1, bg.2.2, a) ∧
    replace_logo_pixel bg (some "dark") (50, 50, 50, a) = (50, 50, 50, a) := by
  have keyDark : ∀ r g b a : ℕ,
      replace_logo_pixel bg (some "dark") (r, g, b, a)
        = if r < 30 ∧ g < 30 ∧ b < 30 then (bg.1, bg.2.1, bg.2.2, a)
          else (r, g, b, a) := by
    intro r g b a
    unfold replace_logo_pixel
    dsimp only
    rw [if_pos (show pyTruthy (some "dark") = true from rfl)]
    rw [show pyLower ((some "dark").getD "") = "dark" from rfl]
    rw [if_pos (show "dark" = "black" ∨ "dark" = "dark" ∨ "dark" = "nero"
      ∨ "dark" = "scuro" by decide)]
  refine ⟨keyDark r g b a, ?_, ?_, ?_, ?_, ?_⟩
  · unfold replace_logo_pixel
    dsimp only
    rw [if_pos (show pyTruthy (some "#FFFFFF") = true from rfl)]
    rw [show pyLower ((some "#FFFFFF").getD "") = "#ffffff" from rfl]
    rw [if_neg (show ¬("#ffffff" = "black" ∨ "#ffffff" = "dark"
      ∨ "#ffffff" = "nero" ∨ "#ffffff" = "scuro") by decide)]
    rw [if_neg (show ¬("#ffffff" = "white" ∨ "#ffffff" = "light"
      ∨ "#ffffff" = "bianco" ∨ "#ffffff" = "chiaro") by decide)]
    rw [if_pos (show pyStartsWith "#ffffff" "#" = true by decide)]
    rw [show hex_to_rgb ((some "#FFFFFF").getD "") = (255, 255, 255) from rfl]
    norm_num
  · unfold replace_logo_pixel
    dsimp only
    rw [if_neg (show ¬pyTruthy none = true from by decide)]
  · intro pol
    unfold replace_logo_pixel
    dsimp only
    split_ifs <;> rfl
  · rw [keyDark]
    norm_num
  · rw [keyDark]
    norm_num

/-- C1: the card height used to draw the card equals the claim's formula
(top padding, category row, product row, the CVE pair of spacings or the single
no-CVE spacing, capped wrapped-line count times line height, tag section when
tags are present, bottom padding), stretched up to the caller-supplied minimum
height via `max` and never shrunk below the formula; the drawn background
rectangle spans exactly this height, the accent bar sits 24 px inside it, the
tag row is anchored to the bottom padding, and the method returns the card
bottom plus a 40 px margin. -/
theorem C1_card_height (measure : String → ℕ) (x y : ℤ) (item : BulletinItem)
    (card_width : ℕ) (min_height : ℤ) (compact : Bool) (g : CardGeometry)
    (hw : 22 ≤ card_width)
    (hg : g = draw_item_card measure x y item card_width min_height compact) :
    g.bottom - g.top
      = max ((padding_top compact + spacing_category compact
          + spacing_product compact
          + (if pyTruthy item.cve_id then
               spacing_cve compact + spacing_cve_desc compact
             else spacing_no_cve compact)
          + min (wrapped_desc item card_width).length (max_desc_lines compact)
              * line_height compact
          + tag_section_height compact item.tags
          + padding_bottom compact : ℕ) : ℤ) min_height ∧
    ((card_height_raw item card_width compact : ℕ) : ℤ) ≤ g.bottom - g.top ∧
    g.accentTop = g.top + 24 ∧
    g.accentBottom = g.bottom - 24 ∧
    g.tagRowBottom = (if item.tags.isEmpty then none
      else some (g.bottom - (padding_bottom compact : ℤ))) ∧
    g.tagRowTop = (if item.tags.isEmpty then none
      else some (g.bottom - (padding_bottom compact : ℤ)
        - (tag_chip_height compact : ℤ))) ∧
    g.endY = g.bottom + 40 := by
  subst hg
  have hmax := card_height_final_eq_max item card_width min_height compact
  refine ⟨?_, ?_, rfl, rfl, rfl, rfl, rfl⟩
  · show y + card_height_final item card_width min_height compact - y
      = max ((card_height_raw item card_width compact : ℕ) : ℤ) min_height
    rw [hmax]
    ring
  · show ((card_height_raw item card_width compact : ℕ) : ℤ)
      ≤ y + card_height_final item card_width min_height compact - y
    rw [hmax]
    have := le_max_left ((card_height_raw item card_width compact : ℕ) : ℤ) min_height
    omega

/-- C1 witness: the theorem applied to a concrete card. -/
theorem C1_card_height_witness :
    22 ≤ 2240 ∧
    (draw_item_card approxTextWidth 80 300 itemC2 2240 0 false).bottom
        - (draw_item_card approxTextWidth 80 300 itemC2 2240 0 false).top
      = max ((padding_top false + spacing_category false + spacing_product false
          + (if pyTruthy itemC2.cve_id then
               spacing_cve false + spacing_cve_desc false
             else spacing_no_cve false)
          + min (wrapped_desc itemC2 2240).length (max_desc_lines false)
              * line_height false
          + tag_section_height false itemC2.tags
          + padding_bottom false : ℕ) : ℤ) 0 :=
  ⟨by norm_num,
    (C1_card_height approxTextWidth 80 300 itemC2 2240 0 false _
      (by norm_num) rfl).1⟩

/-- C5: in normal mode the card draws exactly the first six wrapped description
lines (`wrapped_desc[:6]`), hence never more than six; content beyond the sixth
line is dropped; the height formula counts exactly the retained lines; and a
render without an attached image uses normal (non-compact) mode. -/
theorem C5_desc_truncation (measure : String → ℕ) (x y : ℤ) (item : BulletinItem)
    (card_width : ℕ) (min_height : ℤ) (g : CardGeometry)
    (hw : 22 ≤ card_width)
    (hg : g = draw_item_card measure x y item card_width min_height false) :
    g.descLines = (textwrap_wrap item.description (wrap_width card_width)).take 6 ∧
    g.descLines.length ≤ 6 ∧
    card_height_raw item card_width false
      = padding_top false + spacing_category false + spacing_product false
        + (if pyTruthy item.cve_id then spacing_cve false + spacing_cve_desc false
           else spacing_no_cve false)
        + g.descLines.length * line_height false
        + tag_section_height false item.tags
        + padding_bottom false ∧
    (∀ cfgW cfgH : ℕ,
      (generate_layout measure cfgW cfgH item none).compactMode = false) := by
  subst hg
  have hlen : ((wrapped_desc item card_width).take 6).length
      = min (wrapped_desc item card_width).length 6 := by
    rw [List.length_take]
    exact Nat.min_comm 6 _
  refine ⟨rfl, ?_, ?_, ?_⟩
  · show ((wrapped_desc item card_width).take (max_desc_lines false)).length ≤ 6
    have : max_desc_lines false = 6 := rfl
    rw [this, hlen]
    exact Nat.min_le_right _ 6
  · show card_height_raw item card_width false
      = padding_top false + spacing_category false + spacing_product false
        + (if pyTruthy item.cve_id then spacing_cve false + spacing_cve_desc false
           else spacing_no_cve false)
        + ((wrapped_desc item card_width).take (max_desc_lines false)).length
            * line_height false
        + tag_section_height false item.tags
        + padding_bottom false
    unfold card_height_raw
    rw [show max_desc_lines false = 6 from rfl, hlen]
  · intro cfgW cfgH
    rfl

/-- C5 witness: the theorem applied to a concrete card. -/
theorem C5_desc_truncation_witness :
    22 ≤ 2240 ∧
    (draw_item_card approxTextWidth 80 300 itemC2 2240 0 false).descLines.length ≤ 6 :=
  ⟨by norm_num,
    (C5_desc_truncation approxTextWidth 80 300 itemC2 2240 0 _
      (by norm_num) rfl).2.1⟩

/-- C4 counterexample: the source wraps the description with a single
`textwrap.wrap` call, which collapses explicit line breaks into spaces instead
of splitting on them first: a two-paragraph description separated by a blank
line produces one merged line, not the first paragraph, an empty line and the
second paragraph. -/
theorem C4_counterexample :
    textwrap_wrap "aaaaaaaaaa\n\nbbbbbbbbbb" 101 = ["aaaaaaaaaa  bbbbbbbbbb"] ∧
    textwrap_wrap "aaaaaaaaaa\n\nbbbbbbbbbb" 101 ≠ ["aaaaaaaaaa", "", "bbbbbbbbbb"] ∧
    "" ∉ textwrap_wrap "aaaaaaaaaa\n\nbbbbbbbbbb" 101 ∧
    (draw_item_card approxTextWidth 80 300 itemC4 2240 0 false).descLines
      = ["aaaaaaaaaa  bbbbbbbbbb"] := by
  decide

/-- C4 amended: the text-layout step does not treat explicit line breaks as
paragraph boundaries; `_munge_whitespace` replaces every line-break character
with a space before wrapping, so blank lines are never preserved and a
two-paragraph description is wrapped as one unit. -/
theorem C4_wrap_collapses_line_breaks :
    (∀ s : String, '\n' ∉ (munge s).data) ∧
    textwrap_wrap "aaaaaaaaaa\n\nbbbbbbbbbb" 101 = ["aaaaaaaaaa  bbbbbbbbbb"] ∧
    (draw_item_card approxTextWidth 80 300 itemC4 2240 0 false).descLines
      = ["aaaaaaaaaa  bbbbbbbbbb"] := by
  refine ⟨?_, by decide, by decide⟩
  intro s h
  simp only [munge, List.mem_map] at h
  obtain ⟨d, _, hd⟩ := h
  by_cases hsp : pyIsSpace d = true
  · rw [if_pos hsp] at hd
    exact absurd hd (by decide)
  · rw [if_neg hsp] at hd
    subst hd
    exact hsp (by decide)

/-- C3 counterexample: a record with unknown category `foo` (and unknown
severity `bar`) is rejected by `validate_bulletin_data` with a record-indexed
message, so for records processed by the program's loading pipeline a
validation failure IS reported, contrary to the claim. -/
theorem C3_counterexample :
    (validate_bulletin_data fooBarRec 1).1 = false ∧
    (validate_bulletin_data fooBarRec 1).2
      = "Bollettino #1: Category 'foo' non valida. Usare: aggiornamenti, vulnerabilita, patch, advisory, incident" := by
  decide

/-- C3 amended: `generate_from_dict` itself resolves any unknown category to
`Advisory` and any unknown severity to `Medium` without raising, so a record
handed directly to it is rendered with those defaults; but the validation step
that the program runs on every loaded record rejects unknown categories and
severities, so such records never reach rendering through the normal
pipeline. -/
theorem C3_amended (c s : String)
    (hc : pyLower c ∉ valid_categories) (hs : pyLower s ∉ valid_severities) :
    resolveCategory c = Category.ADVISORY ∧
    resolveSeverity s = Severity.MEDIUM ∧
    generate_from_dict_item fooBarRec
      = some { category := Category.ADVISORY, severity := Severity.MEDIUM,
               product := "GoodProd",
               description := "A long enough description." } ∧
    (validate_bulletin_data fooBarRec 1).1 = false := by
  have hc1 : pyLower c ≠ "aggiornamenti" := fun h => hc (by rw [h]; decide)
  have hc2 : pyLower c ≠ "vulnerabilita" := fun h => hc (by rw [h]; decide)
  have hc3 : pyLower c ≠ "patch" := fun h => hc (by rw [h]; decide)
  have hc4 : pyLower c ≠ "advisory" := fun h => hc (by rw [h]; decide)
  have hc5 : pyLower c ≠ "incident" := fun h => hc (by rw [h]; decide)
  have hs1 : pyLower s ≠ "critical" := fun h => hs (by rw [h]; decide)
  have hs2 : pyLower s ≠ "high" := fun h => hs (by rw [h]; decide)
  have hs3 : pyLower s ≠ "medium" := fun h => hs (by rw [h]; decide)
  have hs4 : pyLower s ≠ "low" := fun h => hs (by rw [h]; decide)
  have hs5 : pyLower s ≠ "info" := fun h => hs (by rw [h]; decide)
  refine ⟨?_, ?_, by decide, by decide⟩
  · unfold resolveCategory
    rw [if_neg hc1, if_neg hc2, if_neg hc3, if_neg hc4, if_neg hc5]
  · unfold resolveSeverity
    rw [if_neg hs1, if_neg hs2, if_neg hs3, if_neg hs4, if_neg hs5]

/-- C3 witness: the theorem applied to the concrete unknown strings. -/
theorem C3_amended_witness :
    pyLower "foo" ∉ valid_categories ∧ pyLower "bar" ∉ valid_severities ∧
    resolveCategory "foo" = Category.ADVISORY ∧
    resolveSeverity "bar" = Severity.MEDIUM :=
  ⟨by decide, by decide,
    (C3_amended "foo" "bar" (by decide) (by decide)).1,
    (C3_amended "foo" "bar" (by decide) (by decide)).2.1⟩

/-- C6 counterexample: a lowercase CVE id passes validation but the card draws
`item.cve_id` verbatim, so the rendered CVE line is NOT normalized to
uppercase. -/
theorem C6_counterexample :
    (validate_bulletin_data lowerCveRec 1).1 = true ∧
    (draw_item_card approxTextWidth 80 300 itemLowerCve 2240 0 false).cveText
      = some "cve-2024-1234" ∧
    some "cve-2024-1234" ≠ some "CVE-2024-1234" := by
  decide

/-- C6 amended: for a record passing all earlier checks and carrying a
non-empty CVE id, validation succeeds exactly when the uppercased id starts
with `CVE-`, and otherwise fails with the record-indexed CVE message; both
`CVE-2024-1234` and `cve-2024-1234` pass; and the rendered CVE line is the
id exactly as provided (no uppercase normalization). -/
theorem C6_amended (d : BulletinDict) (i : ℕ) (c : String)
    (h1 : fieldMissing d.category = false) (h2 : fieldMissing d.severity = false)
    (h3 : fieldMissing d.product = false) (h4 : fieldMissing d.description = false)
    (h5 : categoryUnknown d = false) (h6 : severityUnknown d = false)
    (h7 : productTooShort d = false) (h8 : descriptionTooShort d = false)
    (hc : d.cve_id = some c) (hne : c.isEmpty = false) :
    ((validate_bulletin_data d i).1 = true ↔ pyStartsWith (pyUpper c) "CVE-" = true) ∧
    (pyStartsWith (pyUpper c) "CVE-" = false →
      validate_bulletin_data d i = (false, cveMsg i)) ∧
    (validate_bulletin_data upperCveRec 1).1 = true ∧
    (validate_bulletin_data lowerCveRec 1).1 = true ∧
    (∀ (measure : String → ℕ) (x y : ℤ) (item : BulletinItem)
       (card_width : ℕ) (min_height : ℤ) (compact : Bool),
       pyTruthy item.cve_id = true →
       (draw_item_card measure x y item card_width min_height compact).cveText
         = item.cve_id) := by
  have hcb : cveBad d = !(pyStartsWith (pyUpper c) "CVE-") := by
    unfold cveBad
    rw [hc]
    simp [hne]
  have hval : validate_bulletin_data d i
      = if cveBad d then (false, cveMsg i) else (true, "") := by
    unfold validate_bulletin_data
    simp [h1, h2, h3, h4, h5, h6, h7, h8]
  refine ⟨?_, ?_, by decide, by decide, ?_⟩
  · rw [hval, hcb]
    cases hx : pyStartsWith (pyUpper c) "CVE-" <;> simp [hx]
  · intro hx
    rw [hval, hcb, hx]
    simp
  · intro measure x y item card_width min_height compact ht
    show (if pyTruthy item.cve_id then item.cve_id else none) = item.cve_id
    rw [if_pos ht]

/-- C6 witness: the theorem applied to the lowercase-CVE record. -/
theorem C6_amended_witness :
    fieldMissing lowerCveRec.category = false ∧
    fieldMissing lowerCveRec.severity = false ∧
    fieldMissing lowerCveRec.product = false ∧
    fieldMissing lowerCveRec.description = false ∧
    categoryUnknown lowerCveRec = false ∧
    severityUnknown lowerCveRec = false ∧
    productTooShort lowerCveRec = false ∧
    descriptionTooShort lowerCveRec = false ∧
    lowerCveRec.cve_id = some "cve-2024-1234" ∧
    "cve-2024-1234".isEmpty = false ∧
    ((validate_bulletin_data lowerCveRec 1).1 = true ↔
      pyStartsWith (pyUpper "cve-2024-1234") "CVE-" = true) :=
  ⟨by decide, by decide, by decide, by decide, by decide, by decide, by decide,
   by decide, rfl, by decide,
   (C6_amended lowerCveRec 1 "cve-2024-1234" (by decide) (by decide) (by decide)
     (by decide) (by decide) (by decide) (by decide) (by decide) rfl
     (by decide)).1⟩

/-- C9 counterexample: the placement check uses a fixed 200 px estimate
(`tag_x + 200 > x + card_width - 40`), not the chip's real width, so a chip
wider than the estimate is drawn past the card's right margin: a 200-character
tag measures 4400 px, its chip is drawn at `[130, 4610]`, and 4610 is far past
the right margin 2280 (and past the card's right edge 2320). -/
theorem C9_counterexample :
    tag_chips approxTextWidth [longTag] 80 2240 false
      = [(longTag, 130, 4610)] ∧
    (80 : ℤ) + 2240 - 40 < 4610 := by
  decide

/-- C9 amended: chips are drawn left to right in list order (a prefix of the
tag list, strictly increasing left edges), at most 6 in normal mode and 4 in
compact mode, and placement stops as soon as the fixed 200 px width estimate
would overflow the right margin — so every drawn chip's LEFT edge is at least
200 px from the margin, but a chip wider than the estimate can itself overflow
(see the counterexample). -/
theorem C9_tag_row (measure : String → ℕ) (tags : List String) (x : ℤ)
    (card_width : ℕ) (compact : Bool) :
    (tag_chips measure tags x card_width compact).length
      ≤ (if compact then 4 else 6) ∧
    (tag_chips measure tags x card_width compact).map Prod.fst
      = (tags.take (if compact then 4 else 6)).take
          (tag_chips measure tags x card_width compact).length ∧
    (tag_chips measure tags x card_width compact).Forall
      (fun ch => ch.2.1 + 200 ≤ x + (card_width : ℤ) - 40) ∧
    List.Chain' (fun p q => p.2.1 < q.2.1)
      (tag_chips measure tags x card_width compact) := by
  obtain ⟨h1, h2, h3, _, h5⟩ :=
    tag_chips_go_spec measure compact (x + (card_width : ℤ) - 40)
      (tags.take (if compact then 4 else 6)) (x + 50)
  refine ⟨?_, h2, h3, h5⟩
  calc (tag_chips measure tags x card_width compact).length
      ≤ (tags.take (if compact then 4 else 6)).length := h1
    _ ≤ (if compact then 4 else 6) := by
        rw [List.length_take]
        exact Nat.min_le_left _ _

/-- C2 counterexample: on a 600×1100 canvas, a compact card whose content
height (522 px) exceeds the reserved minimum (450 px) pushes the attached
image down so that its bottom edge (1012) extends past both the top of the
reserved footer region (1100 − 120 = 980) and the footer separator line
(1100 − 110 = 990): the drawn image overlaps the footer. -/
theorem C2_counterexample :
    (generate_layout approxTextWidth 600 1100 itemC2 (some (100, 1000))).imageDrawn
      = true ∧
    (generate_layout approxTextWidth 600 1100 itemC2 (some (100, 1000))).imageBottom
      = 1012 ∧
    (generate_layout approxTextWidth 600 1100 itemC2 (some (100, 1000))).footerLineY
      = 990 ∧
    (generate_layout approxTextWidth 600 1100 itemC2 (some (100, 1000))).footerReservedTop
      = 980 ∧
    (generate_layout approxTextWidth 600 1100 itemC2 (some (100, 1000))).footerLineY
      < (generate_layout approxTextWidth 600 1100 itemC2 (some (100, 1000))).imageBottom ∧
    (generate_layout approxTextWidth 600 1100 itemC2 (some (100, 1000))).footerReservedTop
      < (generate_layout approxTextWidth 600 1100 itemC2 (some (100, 1000))).imageBottom := by
  decide

/-- C2 amended: the image is drawn exactly when the remaining space after
reserving the 450 px minimum card height exceeds the 100 px usable threshold
(otherwise it is omitted entirely); and whenever the compact card's content
height fits inside the reserved minimum height, the regions are pairwise
disjoint: the card starts at 300, below the header separator at 260, the image
starts 40 px below the card's bottom edge, and the image's bottom edge lands
at `height − 160`, at least 40 px above the reserved footer top
`height − 120`.  (When the content height exceeds the reserved minimum the
card grows and the image can overlap the footer — the counterexample.) -/
theorem C2_layout_partition (measure : String → ℕ) (cfgW cfgH : ℕ)
    (item : BulletinItem) (w h : ℕ) (L : PageLayout)
    (hL : L = generate_layout measure cfgW cfgH item (some (w, h))) :
    (L.imageDrawn = true ↔ 100 < L.spaceForImage) ∧
    (100 < L.spaceForImage →
      ((card_height_raw item (cfgW - 160) true : ℕ) : ℤ) ≤ L.cardMinHeight →
      L.card.top = headerBottomY ∧
      headerSeparatorY < L.card.top ∧
      L.imageTop = L.card.bottom + 40 ∧
      L.imageBottom = (cfgH : ℤ) - 160 ∧
      L.imageBottom + 40 ≤ L.footerReservedTop) := by
  subst hL
  unfold generate_layout headerBottomY headerSeparatorY
  dsimp only
  by_cases hsp : (100 : ℤ) < (cfgH : ℤ) - 300 - 120 - 40 - 450 - 40
  · rw [if_pos hsp]
    refine ⟨by simpa using hsp, ?_⟩
    intro _ hraw
    have hH : card_height_final item (cfgW - 160)
        ((cfgH : ℤ) - 300 - 120 - 40
          - (fitImage w h (((cfgW - 160 : ℕ) : ℤ) - 80)
              (min ((cfgH : ℤ) - 300 - 120 - 40 - 450 - 40) 600)).2 - 40) true
        = (cfgH : ℤ) - 300 - 120 - 40
            - (fitImage w h (((cfgW - 160 : ℕ) : ℤ) - 80)
                (min ((cfgH : ℤ) - 300 - 120 - 40 - 450 - 40) 600)).2 - 40 := by
      rw [card_height_final_eq_max]
      exact max_eq_right hraw
    refine ⟨rfl, by show (260 : ℤ) < (300 : ℤ); norm_num, rfl, ?_, ?_⟩
    · show 300 + card_height_final item (cfgW - 160) _ true + 40
          + (fitImage w h _ _).2 = (cfgH : ℤ) - 160
      rw [hH]
      ring
    · show 300 + card_height_final item (cfgW - 160) _ true + 40
          + (fitImage w h _ _).2 + 40 ≤ (cfgH : ℤ) - 120
      rw [hH]
      omega
  · rw [if_neg hsp]
    refine ⟨by simpa using hsp, ?_⟩
    intro hsp2 _
    exact absurd hsp2 hsp

/-- C2 witness: the theorem applied to a 2400×1600 canvas, a small item whose
compact content height (304) fits inside the reserved minimum (500), and a
square 1000×1000 image (scaled to 600×600). -/
theorem C2_layout_partition_witness :
    (100 : ℤ)
      < (generate_layout approxTextWidth 2400 1600 itemSmall
          (some (1000, 1000))).spaceForImage ∧
    ((card_height_raw itemSmall (2400 - 160) true : ℕ) : ℤ)
      ≤ (generate_layout approxTextWidth 2400 1600 itemSmall
          (some (1000, 1000))).cardMinHeight ∧
    (generate_layout approxTextWidth 2400 1600 itemSmall
        (some (1000, 1000))).imageBottom = (1600 : ℤ) - 160 :=
  ⟨by decide, by decide,
    ((C2_layout_partition approxTextWidth 2400 1600 itemSmall 1000 1000 _ rfl).2
      (by decide) (by decide)).2.2.2.1⟩

/-- C8 counterexample: in `b.json` the first record is valid and the second is
invalid; `load_bulletins_from_file` rejects the whole file, so the valid
sibling record is NOT rendered (only `a.png` is produced and the run counts a
single success), contradicting "only that record's processing is aborted, and
sibling records are still rendered". -/
theorem C8_counterexample :
    process_batch "in" [("a.json", .ok [goodRec]), ("b.json", .ok [goodRec, badRec])]
      = (1, 1, ["❌ b.json: Bollettino #2: Campo obbligatorio 'product' mancante o vuoto"]) ∧
    batchOutputs [("a.json", .ok [goodRec]), ("b.json", .ok [goodRec, badRec])]
      = ["a.png"] := by
  decide

/-- C8 amended: a failing record is reported with a record-indexed,
field-naming message and aborts its whole FILE (none of that file's records
are rendered), while other files are unaffected (batch accumulation is
file-compositional); on one valid single-record file plus one invalid file the
run produces exactly one PNG, records one error naming the invalid file, and
exits with code 1; a batch with zero failures exits with code 0. -/
theorem C8_batch_report :
    (∀ fs1 fs2 : List (String × Except String (List BulletinDict)),
      (fs1 ++ fs2).foldl batchStep (0, 0, [])
        = combineBatch (fs1.foldl batchStep (0, 0, []))
            (fs2.foldl batchStep (0, 0, []))) ∧
    process_batch "dir"
        [("valid.json", .ok [goodRec]),
         ("invalid.json", .error "Errore parsing JSON in invalid.json: Expecting value: line 1 column 1 (char 0)")]
      = (1, 1, ["❌ invalid.json: Errore parsing JSON in invalid.json: Expecting value: line 1 column 1 (char 0)"]) ∧
    batchOutputs
        [("valid.json", .ok [goodRec]),
         ("invalid.json", .error "Errore parsing JSON in invalid.json: Expecting value: line 1 column 1 (char 0)")]
      = ["valid.png"] ∧
    batchExitCode 1 = 1 ∧
    batchExitCode 0 = 0 ∧
    (∀ n : ℕ, batchExitCode (n + 1) = 1) ∧
    (validate_bulletin_data badRec 2).2
      = "Bollettino #2: Campo obbligatorio 'product' mancante o vuoto" := by
  refine ⟨?_, by decide, by decide, by decide, by decide, ?_, by decide⟩
  · intro fs1 fs2
    rw [List.foldl_append, foldl_batchStep_shift fs2]
  · intro n
    simp [batchExitCode]

end AlertForge
